import Mathlib

/-!
Verification of the build-task orchestration subsystem of
astrbot_plugin_win_packer: a shallow embedding of the priority task queue
(src/infrastructure/task_management/queue.py), the task entities
(src/domain/models/entities.py), the task executor
(src/infrastructure/task_management/executor.py) and the orchestrator
(src/application/services/build_orchestrator.py), together with theorems
about the behaviour of those functions.

Modelling conventions: `datetime.now()` is modelled by explicit `Nat`
tick parameters (in the queue, by a strictly increasing `clock` field);
datetime `isoformat`/`fromisoformat` round exactly, so they are modelled
as the identity on ticks.  Python exceptions become `Except String`.
The `asyncio.PriorityQueue` heap is modelled by the list of its elements
together with `popMin`, which extracts a minimal element under
`QueuedTask.lt` (the heap property guarantees exactly that the popped
root is minimal under the strict weak order `__lt__`).
-/

namespace WinPacker

/-! ## Data model: src/domain/models/entities.py -/

/-- `BuildStrategy` enum. -/
inductive BuildStrategy where
  | SIMPLE
  | DEVELOP
  | DEBUG
  | SPECIAL
  | ALL
deriving DecidableEq

/-- The `.value` string of each `BuildStrategy` member. -/
def BuildStrategy.value : BuildStrategy → String
  | .SIMPLE => "simple"
  | .DEVELOP => "develop"
  | .DEBUG => "debug"
  | .SPECIAL => "special"
  | .ALL => "all"

/-- `BuildStrategy(value)` lookup by enum value, as used by `from_dict`. -/
def BuildStrategy.fromValue (s : String) : Option BuildStrategy :=
  if s = "simple" then some .SIMPLE
  else if s = "develop" then some .DEVELOP
  else if s = "debug" then some .DEBUG
  else if s = "special" then some .SPECIAL
  else if s = "all" then some .ALL
  else none

/-- `TaskStatus` enum. -/
inductive TaskStatus where
  | PENDING
  | QUEUED
  | RUNNING
  | COMPLETED
  | FAILED
  | CANCELLED
deriving DecidableEq

/-- The `.value` string of each `TaskStatus` member. -/
def TaskStatus.value : TaskStatus → String
  | .PENDING => "pending"
  | .QUEUED => "queued"
  | .RUNNING => "running"
  | .COMPLETED => "completed"
  | .FAILED => "failed"
  | .CANCELLED => "cancelled"

/-- `TaskStatus(value)` lookup by enum value, as used by `from_dict`. -/
def TaskStatus.fromValue (s : String) : Option TaskStatus :=
  if s = "pending" then some .PENDING
  else if s = "queued" then some .QUEUED
  else if s = "running" then some .RUNNING
  else if s = "completed" then some .COMPLETED
  else if s = "failed" then some .FAILED
  else if s = "cancelled" then some .CANCELLED
  else none

/-- `str(TaskStatus.X)` as interpolated into error messages. -/
def TaskStatus.pystr : TaskStatus → String
  | .PENDING => "TaskStatus.PENDING"
  | .QUEUED => "TaskStatus.QUEUED"
  | .RUNNING => "TaskStatus.RUNNING"
  | .COMPLETED => "TaskStatus.COMPLETED"
  | .FAILED => "TaskStatus.FAILED"
  | .CANCELLED => "TaskStatus.CANCELLED"

/-- `BuildType` enum. -/
inductive BuildType where
  | DEVELOPMENT
  | DEBUG
  | SHIPPING
  | UNKNOWN
deriving DecidableEq

/-- The `BuildTask` dataclass.  Datetimes are `Nat` ticks, the optional
fields keep their source names.  (`__post_init__` validation concerns
construction of fresh tasks and is not needed by the claims below.) -/
structure BuildTask where
  branch : String
  strategy : BuildStrategy
  task_id : String
  arg3 : Option String
  status : TaskStatus
  created_at : Nat
  started_at : Option Nat
  completed_at : Option Nat
  bat_dir : Option String
  publish_root : Option String
  process_id : Option Nat
  return_code : Option Int
  error_message : Option String
deriving DecidableEq

/-- Python truthiness of an `Optional[str]`: `None` and the empty string
are falsy. -/
def pyTruthyStr (x : Option String) : Bool :=
  match x with
  | none => false
  | some s => s ≠ ""

/-- `BuildTask.start_execution`: only legal from QUEUED; sets RUNNING,
`started_at` and `process_id`. -/
def BuildTask.startExecution (t : BuildTask) (pid : Nat) (now : Nat) :
    Except String BuildTask :=
  if t.status = TaskStatus.QUEUED then
    Except.ok { t with status := TaskStatus.RUNNING,
                       started_at := some now,
                       process_id := some pid }
  else
    Except.error ("Cannot start task with status " ++ t.status.pystr)

/-- `BuildTask.complete_execution`: only legal from RUNNING; records the
return code and error message, then marks COMPLETED exactly when
`return_code == 0 and not error_message` (Python truthiness) and FAILED
otherwise. -/
def BuildTask.completeExecution (t : BuildTask) (rc : Int)
    (msg : Option String) (now : Nat) : Except String BuildTask :=
  if t.status = TaskStatus.RUNNING then
    let t2 := { t with completed_at := some now,
                       return_code := some rc,
                       error_message := msg }
    if rc = 0 ∧ pyTruthyStr msg = false then
      Except.ok { t2 with status := TaskStatus.COMPLETED }
    else
      Except.ok { t2 with status := TaskStatus.FAILED }
  else
    Except.error ("Cannot complete task with status " ++ t.status.pystr)

/-- `BuildTask.cancel_execution`: only legal from QUEUED or RUNNING;
sets CANCELLED, `completed_at` and the (`or`-defaulted) error message. -/
def BuildTask.cancelExecution (t : BuildTask) (msg : Option String)
    (now : Nat) : Except String BuildTask :=
  if t.status = TaskStatus.QUEUED ∨ t.status = TaskStatus.RUNNING then
    Except.ok { t with status := TaskStatus.CANCELLED,
                       completed_at := some now,
                       error_message :=
                         some (if pyTruthyStr msg then msg.getD ("") else
                               ("Task cancelled by user")) }
  else
    Except.error ("Cannot cancel task with status " ++ t.status.pystr)

/-- The dictionary produced by `BuildTask.to_dict` (enum values and
isoformat datetimes become the stored representations). -/
structure TaskDict where
  task_id : String
  branch : String
  strategy : String
  arg3 : Option String
  status : String
  created_at : Nat
  started_at : Option Nat
  completed_at : Option Nat
  bat_dir : Option String
  publish_root : Option String
  process_id : Option Nat
  return_code : Option Int
  error_message : Option String
deriving DecidableEq

/-- `BuildTask.to_dict`. -/
def BuildTask.toDict (t : BuildTask) : TaskDict :=
  { task_id := t.task_id
    branch := t.branch
    strategy := t.strategy.value
    arg3 := t.arg3
    status := t.status.value
    created_at := t.created_at
    started_at := t.started_at
    completed_at := t.completed_at
    bat_dir := t.bat_dir
    publish_root := t.publish_root
    process_id := t.process_id
    return_code := t.return_code
    error_message := t.error_message }

/-- `BuildTask.from_dict`; parsing an unknown strategy or status value
raises, modelled by `none`. -/
def BuildTask.fromDict (d : TaskDict) : Option BuildTask :=
  match BuildStrategy.fromValue d.strategy with
  | none => none
  | some strat =>
    match TaskStatus.fromValue d.status with
    | none => none
    | some stat =>
      some { task_id := d.task_id
             branch := d.branch
             strategy := strat
             arg3 := d.arg3
             status := stat
             created_at := d.created_at
             started_at := d.started_at
             completed_at := d.completed_at
             bat_dir := d.bat_dir
             publish_root := d.publish_root
             process_id := d.process_id
             return_code := d.return_code
             error_message := d.error_message }

/-! ## Priority queue: src/infrastructure/task_management/queue.py -/

/-- `QueuePriority` enum (src/domain/interfaces/task_queue.py). -/
inductive QueuePriority where
  | LOW
  | NORMAL
  | HIGH
  | URGENT
deriving DecidableEq

/-- The numeric `.value` of each priority (higher = served first). -/
def QueuePriority.value : QueuePriority → Nat
  | .LOW => 1
  | .NORMAL => 2
  | .HIGH => 3
  | .URGENT => 4

/-- The `.name` of each priority, as persisted. -/
def QueuePriority.pname : QueuePriority → String
  | .LOW => "LOW"
  | .NORMAL => "NORMAL"
  | .HIGH => "HIGH"
  | .URGENT => "URGENT"

/-- `QueuePriority[name]` lookup, as used when loading persisted tasks. -/
def QueuePriority.fromName (s : String) : Option QueuePriority :=
  if s = "LOW" then some .LOW
  else if s = "NORMAL" then some .NORMAL
  else if s = "HIGH" then some .HIGH
  else if s = "URGENT" then some .URGENT
  else none

/-- The `QueuedTask` wrapper: task, priority and enqueue timestamp. -/
structure QueuedTask where
  task : BuildTask
  priority : QueuePriority
  queued_at : Nat
deriving DecidableEq

/-- `QueuedTask.__lt__`: higher priority value first, FIFO within equal
priority (earlier `queued_at` first). -/
def QueuedTask.lt (a b : QueuedTask) : Bool :=
  if a.priority.value ≠ b.priority.value then
    decide (b.priority.value < a.priority.value)
  else
    decide (a.queued_at < b.queued_at)

/-- Extraction from the `asyncio.PriorityQueue` heap: returns a minimal
element under `QueuedTask.lt` together with the remaining elements
(leftmost among incomparable ties). -/
def popMin : List QueuedTask → Option (QueuedTask × List QueuedTask)
  | [] => none
  | x :: xs =>
    match popMin xs with
    | none => some (x, xs)
    | some (m, rest) =>
      if QueuedTask.lt m x = true then some (m, x :: rest) else some (x, xs)

/-- The state of a `ThreadSafeTaskQueue`: the priority-queue contents
(`_queue`), the `_task_lookup` dict as an insertion-ordered association
list, the two statistics counters, and the model clock standing for
`datetime.now()` (strictly increasing across enqueues). -/
structure QueueState where
  heap : List QueuedTask
  lookup : List (String × QueuedTask)
  total_enqueued : Nat
  total_dequeued : Nat
  clock : Nat
deriving DecidableEq

/-- A freshly constructed queue with no persistence file. -/
def emptyQueue : QueueState :=
  { heap := [], lookup := [], total_enqueued := 0, total_dequeued := 0,
    clock := 0 }

/-- `task_id in self._task_lookup`. -/
def lookupHas (l : List (String × QueuedTask)) (id : String) : Bool :=
  l.any (fun p => p.1 == id)

/-- `self._task_lookup.pop(task_id, None)` / `del self._task_lookup[k]`:
remove the (unique) binding for `id`. -/
def eraseKey (l : List (String × QueuedTask)) (id : String) :
    List (String × QueuedTask) :=
  match l with
  | [] => []
  | p :: rest => if p.1 == id then rest else p :: eraseKey rest id

/-- `ThreadSafeTaskQueue.enqueue`: rejects a duplicate id, otherwise
marks the task QUEUED, wraps it with the current time, inserts it into
the heap and the lookup and bumps `_total_enqueued`. -/
def enqueue (s : QueueState) (task : BuildTask) (priority : QueuePriority) :
    Bool × QueueState :=
  if lookupHas s.lookup task.task_id then (false, s)
  else
    let task2 := { task with status := TaskStatus.QUEUED }
    let qt : QueuedTask :=
      { task := task2, priority := priority, queued_at := s.clock }
    (true,
     { heap := s.heap ++ [qt]
       lookup := s.lookup ++ [(task2.task_id, qt)]
       total_enqueued := s.total_enqueued + 1
       total_dequeued := s.total_dequeued
       clock := s.clock + 1 })

/-- `ThreadSafeTaskQueue.dequeue`: on a non-empty heap, takes the
highest-priority element from the heap, drops its id from the lookup
and bumps `_total_dequeued`; on an empty heap returns `None`. -/
def dequeue (s : QueueState) : Option BuildTask × QueueState :=
  match popMin s.heap with
  | none => (none, s)
  | some (qt, rest) =>
    (some qt.task,
     { heap := rest
       lookup := eraseKey s.lookup qt.task.task_id
       total_enqueued := s.total_enqueued
       total_dequeued := s.total_dequeued + 1
       clock := s.clock })

/-- `ThreadSafeTaskQueue.cancel_task`: unknown ids return `False`;
otherwise `cancel_execution` marks the shared task object CANCELLED
(reflected in the heap entry, which aliases the same `BuildTask`) and
the id is deleted from `_task_lookup` only — the heap entry remains. -/
def cancelTask (s : QueueState) (task_id : String) (now : Nat) :
    Bool × QueueState :=
  match s.lookup.find? (fun p => p.1 == task_id) with
  | none => (false, s)
  | some p =>
    match p.2.task.cancelExecution (some ("Cancelled from queue")) now with
    | Except.error _ => (false, s)
    | Except.ok t2 =>
      (true,
       { s with
         heap := s.heap.map (fun q =>
           if q.task.task_id == task_id then { q with task := t2 } else q)
         lookup := eraseKey s.lookup task_id })

/-- Stable insertion of one element under `QueuedTask.lt` (ties keep the
incoming element later). -/
def insertSorted (a : QueuedTask) : List QueuedTask → List QueuedTask
  | [] => [a]
  | b :: bs =>
    if QueuedTask.lt a b = true then a :: b :: bs else b :: insertSorted a bs

/-- `list.sort()` on queued tasks: a stable sort by `__lt__`. -/
def sortQueued (l : List QueuedTask) : List QueuedTask :=
  l.foldr insertSorted []

/-- `ThreadSafeTaskQueue.get_task_position`: `None` for ids not in the
lookup; otherwise the 1-based rank of the task among all lookup values
sorted by `__lt__`. -/
def getTaskPosition (s : QueueState) (task_id : String) : Option Nat :=
  if lookupHas s.lookup task_id then
    match (sortQueued (s.lookup.map Prod.snd)).findIdx?
        (fun qt => qt.task.task_id == task_id) with
    | some i => some (i + 1)
    | none => none
  else none

/-! ## Queue persistence -/

/-- One element of the persisted `tasks` list. -/
structure PersistEntry where
  task : TaskDict
  priority : String
  queued_at : Nat
deriving DecidableEq

/-- The persisted file contents: tasks plus the statistics record. -/
structure PersistData where
  tasks : List PersistEntry
  total_enqueued : Nat
  total_dequeued : Nat
deriving DecidableEq

/-- `ThreadSafeTaskQueue._persist_queue`: serializes every lookup value
(with priority name and isoformat `queued_at`) and the counters. -/
def persistQueue (s : QueueState) : PersistData :=
  { tasks := s.lookup.map (fun p =>
      { task := p.2.task.toDict
        priority := p.2.priority.pname
        queued_at := p.2.queued_at })
    total_enqueued := s.total_enqueued
    total_dequeued := s.total_dequeued }

/-- Restoring a single persisted entry; a parse failure is logged and
the entry skipped (`none`). -/
def restoreEntry (e : PersistEntry) : Option QueuedTask :=
  match BuildTask.fromDict e.task with
  | none => none
  | some t =>
    match QueuePriority.fromName e.priority with
    | none => none
    | some p => some { task := t, priority := p, queued_at := e.queued_at }

/-- `ThreadSafeTaskQueue._load_persisted_tasks` followed by
`_rebuild_priority_queue`: restores the counters, rebuilds the lookup
from the restored entries in file order, keyed by `task.task_id`, and
re-adds every lookup value to the heap.  `clock` models the current
time of the restarted process. -/
def loadPersisted (d : PersistData) (clock : Nat) : QueueState :=
  let restored := d.tasks.filterMap restoreEntry
  { heap := restored
    lookup := restored.map (fun qt => (qt.task.task_id, qt))
    total_enqueued := d.total_enqueued
    total_dequeued := d.total_dequeued
    clock := clock }

/-- Repeatedly dequeue (by fuel) and report the returned task ids: the
observable dequeue order of a queue's heap. -/
def drainAux : Nat → List QueuedTask → List String
  | 0, _ => []
  | n + 1, h =>
    match popMin h with
    | none => []
    | some (q, rest) => q.task.task_id :: drainAux n rest

/-- The full dequeue order of a heap. -/
def drainIds (h : List QueuedTask) : List String :=
  drainAux h.length h

/-- A sequence of `enqueue` operations applied in order. -/
def applyEnqueues (ops : List (BuildTask × QueuePriority)) (s : QueueState) :
    QueueState :=
  ops.foldl (fun acc op => (enqueue acc op.1 op.2).2) s

/-! ## Orchestrator: src/application/services/build_orchestrator.py -/

/-- A discovered build artifact (`BuildInfo`). -/
structure BuildInfo where
  path : String
  folder_name : String
  ymd : String
  version : String
  build_type : BuildType
  size_str : String
  size_bytes : Nat
deriving DecidableEq

/-- A `BuildResult` (duration in whole seconds). -/
structure BuildResult where
  task : BuildTask
  success : Bool
  build_info : Option BuildInfo
  error_message : Option String
  log_content : Option String
  duration : Option Nat
deriving DecidableEq

/-- The dict returned by `_determine_build_success`. -/
structure SuccessCheck where
  success : Bool
  reason : Option String
deriving DecidableEq

/-- `BuildOrchestrator._determine_build_success` (pure function): a
non-zero exit code, a missing artifact, or an artifact below
`min_size_threshold` each yield failure with the corresponding reason;
otherwise success. -/
def determineBuildSuccess (min_size_threshold : Nat) (task : BuildTask)
    (build_info : Option BuildInfo) (return_code : Int) : SuccessCheck :=
  if return_code ≠ 0 then
    { success := false,
      reason := some ("Process exited with code " ++ toString return_code) }
  else
    match build_info with
    | none => { success := false, reason := some ("No build artifacts detected") }
    | some info =>
      if info.size_bytes < min_size_threshold then
        { success := false,
          reason := some ("Build artifact too small (" ++ info.size_str ++ ")") }
      else
        { success := true, reason := none }

/-- Python `task.return_code or -1`, as written in
`_process_build_results`: `None` is replaced by `-1`, and — because `0`
is falsy in Python — an exit code of `0` is replaced by `-1` as well. -/
def pyOrRc (rc : Option Int) : Int :=
  match rc with
  | none => -1
  | some v => if v = 0 then -1 else v

/-- `BuildOrchestrator._process_build_results`: asks the file manager
for the latest artifact after the task's start (its outcome is the
`found_build`/`build_info` input here), determines success from it and
`task.return_code or -1`, and builds the corresponding `BuildResult`
(the AI changelog / failure-analysis calls do not affect the result's
success, build_info, error_message or duration fields). -/
def processBuildResults (min_size_threshold : Nat) (task : BuildTask)
    (duration : Nat) (found_build : Bool) (build_info : Option BuildInfo) :
    BuildResult :=
  let check := determineBuildSuccess min_size_threshold task
    (if found_build then build_info else none) (pyOrRc task.return_code)
  if check.success then
    { task := task, success := true, build_info := build_info,
      error_message := none, log_content := none, duration := some duration }
  else
    { task := task, success := false, build_info := none,
      error_message := check.reason, log_content := none,
      duration := some duration }

/-- The orchestrator's own mutable state: `_is_processing`,
`_current_task`, and the queue it drains. -/
structure OrchestratorState where
  is_processing : Bool
  current_task : Option BuildTask
  queue : QueueState
deriving DecidableEq

/-- How one `_process_build_task` try-body ends: either the executor
returned and `_process_build_results` produced a result, or some step
raised and the except-branch built a failure result from the exception
text.  Either way control reaches the finally-block. -/
inductive RunOutcome where
  | finished (result : BuildResult)
  | raised (msg : String)

/-- `BuildOrchestrator._process_next_task`: dequeue; a task starts the
next round of processing (returned here as the spawned task), an empty
queue clears `_is_processing`. -/
def processNextTask (s : OrchestratorState) :
    OrchestratorState × Option BuildTask :=
  match dequeue s.queue with
  | (some t, q2) => ({ s with queue := q2 }, some t)
  | (none, q2) => ({ s with queue := q2, is_processing := false }, none)

/-- `BuildOrchestrator._process_build_task`: records the current task,
runs the try-body (whose outcome is given), producing either the
computed result or — under `except Exception` — a failure result with
the exception text; then the finally-block unconditionally clears
`_current_task` and runs `_process_next_task`.  Returns the final
state, the notified result, and the task spawned for the next round. -/
def processBuildTask (s : OrchestratorState) (task : BuildTask)
    (outcome : RunOutcome) :
    OrchestratorState × BuildResult × Option BuildTask :=
  let s1 := { s with current_task := some task }
  let result :=
    match outcome with
    | .finished r => r
    | .raised msg =>
      { task := task, success := false, build_info := none,
        error_message := some msg, log_content := none, duration := none }
  let s2 := { s1 with current_task := none }
  let (s3, next) := processNextTask s2
  (s3, result, next)

/-! ## Executor: src/infrastructure/task_management/executor.py -/

/-- The executor's mutable state. -/
structure ExecutorState where
  current_task : Option BuildTask
  current_process : Option Nat
  is_executing : Bool
  is_cancelled : Bool
deriving DecidableEq

/-- What the finally-block of `execute_task` leaves behind. -/
def clearedExec : ExecutorState :=
  { current_task := none, current_process := none, is_executing := false,
    is_cancelled := false }

/-- Environment behaviour of one `execute_task` run: either
`_start_build_process` fails to launch (raising `ProcessError`), or the
process starts with the given pid and `_run_build_process` either
raises or yields a return code, with `cancelledDuring` recording
whether `cancel_current_task` set `_is_cancelled` meanwhile. -/
inductive ExecEnv where
  | launchFail (msg : String)
  | run (pid : Nat) (runResult : Except String Int) (cancelledDuring : Bool)

/-- `TaskExecutor.execute_task`: raises at once if already executing
(state untouched); otherwise marks itself busy, runs the try-body —
launch, `task.start_execution`, the streaming loop, then
`cancel_execution` or `complete_execution`; any exception is handled by
`task.complete_execution(-1, str(e))` followed by a re-raise (a
transition error raised by that handler itself propagates instead) —
and the finally-block always clears the current task, the process
handle, the executing flag and the cancellation flag.  Returns the
final executor state, the task as last assigned, and the propagated
exception if any. -/
def executeTask (st : ExecutorState) (task : BuildTask) (env : ExecEnv)
    (now : Nat) : ExecutorState × BuildTask × Except String Unit :=
  if st.is_executing then
    (st, task, Except.error ("Executor is already running a task"))
  else
    let body : BuildTask × Except String Unit :=
      match env with
      | .launchFail msg =>
        let emsg := "Failed to start build process: " ++ msg
        match task.completeExecution (-1) (some emsg) now with
        | Except.ok t2 => (t2, Except.error emsg)
        | Except.error ve => (task, Except.error ve)
      | .run pid runResult cancelledDuring =>
        match task.startExecution pid now with
        | Except.error ve =>
          match task.completeExecution (-1) (some ve) now with
          | Except.ok t2 => (t2, Except.error ve)
          | Except.error ve2 => (task, Except.error ve2)
        | Except.ok t1 =>
          match runResult with
          | Except.error msg =>
            let emsg := "Process execution failed: " ++ msg
            match t1.completeExecution (-1) (some emsg) now with
            | Except.ok t2 => (t2, Except.error emsg)
            | Except.error ve2 => (t1, Except.error ve2)
          | Except.ok rc =>
            if cancelledDuring then
              match t1.cancelExecution
                  (some ("Task was cancelled during execution")) now with
              | Except.ok t2 => (t2, Except.ok ())
              | Except.error ve =>
                match t1.completeExecution (-1) (some ve) now with
                | Except.ok t2 => (t2, Except.error ve)
                | Except.error ve2 => (t1, Except.error ve2)
            else
              let emsg : Option String :=
                if rc = 0 then none
                else some ("Process exited with code " ++ toString rc)
              match t1.completeExecution rc emsg now with
              | Except.ok t2 => (t2, Except.ok ())
              | Except.error ve =>
                match t1.completeExecution (-1) (some ve) now with
                | Except.ok t2 => (t2, Except.error ve)
                | Except.error ve2 => (t1, Except.error ve2)
    (clearedExec, body.1, body.2)

/-! ## Streaming progress: `TaskExecutor._run_build_process` -/

/-- A `ProgressUpdate` event (the `datetime.now()` timestamp plays no
role below and is omitted). -/
structure ProgressUpdate where
  task_id : String
  stage : String
  message : String
deriving DecidableEq

/-- The ordered stage-trigger table of `_run_build_process`. -/
def stages : List (String × String) :=
  [("Running AutomationTool...", "Init UAT"),
   ("Command: BuildCookRun", "Start Build"),
   ("Cook: ", "Cooking..."),
   ("Stage: ", "Staging..."),
   ("Package: ", "Packaging..."),
   ("BUILD SUCCESSFUL", "Finalizing...")]

/-- Whether `p` is an initial segment of `s` (on character lists). -/
def charsStartWith : List Char → List Char → Bool
  | _, [] => true
  | [], _ :: _ => false
  | c :: cs, p :: ps => c == p && charsStartWith cs ps

/-- Whether `pat` occurs contiguously inside `s` (on character lists). -/
def charsContain : List Char → List Char → Bool
  | s, pat =>
    charsStartWith s pat ||
      (match s with
       | [] => false
       | _ :: cs => charsContain cs pat)

/-- Python `pat in s` substring test. -/
def strContains (s pat : String) : Bool :=
  charsContain s.data pat.data

/-- Handling of one decoded, stripped output line: an empty line is
skipped; otherwise the first listed trigger that occurs in the line and
is not yet in `triggered_stages` is recorded and emits one
`ProgressUpdate`, and the per-line loop breaks. -/
def processOutputLine (taskId : String) (triggered : List String)
    (line : String) : List String × Option ProgressUpdate :=
  if line = "" then (triggered, none)
  else
    match stages.find? (fun p =>
        strContains line p.1 && !(triggered.contains p.1)) with
    | some p =>
      (triggered ++ [p.1],
       some { task_id := taskId, stage := p.1, message := p.2 })
    | none => (triggered, none)

/-- The read loop of `_run_build_process` over the (uncancelled) run's
decoded output lines: threads `triggered_stages` through and collects
the emitted `ProgressUpdate`s in order. -/
def runBuildOutput (taskId : String) (lines : List String) :
    List String × List ProgressUpdate :=
  lines.foldl
    (fun acc line =>
      let r := processOutputLine taskId acc.1 line
      (r.1, acc.2 ++ r.2.toList))
    ([], [])

/-! ## Ordering lemmas for `QueuedTask.lt` -/

theorem lt_eq_true_iff (a b : QueuedTask) :
    QueuedTask.lt a b = true ↔
      (b.priority.value < a.priority.value ∨
       (a.priority.value = b.priority.value ∧ a.queued_at < b.queued_at)) := by
  unfold QueuedTask.lt
  by_cases hp : a.priority.value = b.priority.value <;> simp [hp] <;> omega

theorem lt_eq_false_iff (a b : QueuedTask) :
    QueuedTask.lt a b = false ↔
      (a.priority.value < b.priority.value ∨
       (a.priority.value = b.priority.value ∧ b.queued_at ≤ a.queued_at)) := by
  unfold QueuedTask.lt
  by_cases hp : a.priority.value = b.priority.value <;> simp [hp] <;> omega

theorem lt_self_eq_false (a : QueuedTask) : QueuedTask.lt a a = false := by
  rw [lt_eq_false_iff]
  omega

theorem lt_asymm (a b : QueuedTask) (h : QueuedTask.lt a b = true) :
    QueuedTask.lt b a = false := by
  rw [lt_eq_true_iff] at h
  rw [lt_eq_false_iff]
  omega

theorem lt_neg_trans (a b c : QueuedTask) (hab : QueuedTask.lt a b = false)
    (hbc : QueuedTask.lt b c = false) : QueuedTask.lt a c = false := by
  rw [lt_eq_false_iff] at hab hbc
  rw [lt_eq_false_iff]
  omega

/-! ## `popMin` extraction lemmas -/

theorem popMin_eq_none_iff (l : List QueuedTask) : popMin l = none ↔ l = [] := by
  cases l with
  | nil => simp [popMin]
  | cons x xs =>
    simp only [popMin]
    cases hxs : popMin xs with
    | none => simp
    | some p => simp only []; split <;> simp

theorem popMin_spec (l : List QueuedTask) (q : QueuedTask)
    (rest : List QueuedTask) (h : popMin l = some (q, rest)) :
    q ∈ l ∧ l.Perm (q :: rest) ∧ ∀ x ∈ l, QueuedTask.lt x q = false := by
  induction l generalizing q rest with
  | nil => simp [popMin] at h
  | cons x xs ih =>
    rw [popMin] at h
    cases hxs : popMin xs with
    | none =>
      rw [hxs] at h
      have hnil : xs = [] := (popMin_eq_none_iff xs).1 hxs
      subst hnil
      have hpair : (x, ([] : List QueuedTask)) = (q, rest) :=
        Option.some.inj h
      have hq : x = q := congrArg Prod.fst hpair
      have hr : ([] : List QueuedTask) = rest := congrArg Prod.snd hpair
      rw [← hq, ← hr]
      refine ⟨by simp, by simp, ?_⟩
      intro y hy
      simp at hy
      rw [hy]
      exact lt_self_eq_false x
    | some p =>
      obtain ⟨m, r⟩ := p
      rw [hxs] at h
      obtain ⟨hm_mem, hm_perm, hm_min⟩ := ih m r hxs
      have h2 : (if QueuedTask.lt m x = true then some (m, x :: r)
          else some (x, xs)) = some (q, rest) := h
      by_cases hlt : QueuedTask.lt m x = true
      · rw [if_pos hlt] at h2
        have hpair : (m, x :: r) = (q, rest) := Option.some.inj h2
        have hq : m = q := congrArg Prod.fst hpair
        have hr : x :: r = rest := congrArg Prod.snd hpair
        rw [← hq, ← hr]
        refine ⟨List.mem_cons_of_mem x hm_mem, ?_, ?_⟩
        · exact (hm_perm.cons x).trans (List.Perm.swap m x r)
        · intro y hy
          rcases List.mem_cons.1 hy with h1 | h1
          · rw [h1]
            exact lt_asymm m x hlt
          · exact hm_min y h1
      · have hlt2 : QueuedTask.lt m x = false := by
          cases hb : QueuedTask.lt m x
          · rfl
          · exact absurd hb hlt
        rw [if_neg hlt] at h2
        have hpair : (x, xs) = (q, rest) := Option.some.inj h2
        have hq : x = q := congrArg Prod.fst hpair
        have hr : xs = rest := congrArg Prod.snd hpair
        rw [← hq, ← hr]
        refine ⟨by simp, by simp, ?_⟩
        intro y hy
        rcases List.mem_cons.1 hy with h1 | h1
        · rw [h1]
          exact lt_self_eq_false x
        · exact lt_neg_trans y m x (hm_min y h1) hlt2

/-! ## Reachability invariant: enqueue assigns strictly increasing
`queued_at` stamps, so all stamps in the heap are distinct -/

/-- All heap stamps precede the clock and are pairwise distinct. -/
def HeapOk (s : QueueState) : Prop :=
  (∀ qt ∈ s.heap, qt.queued_at < s.clock) ∧
  s.heap.Pairwise (fun a b => a.queued_at ≠ b.queued_at)

theorem heapOk_empty : HeapOk emptyQueue := by
  constructor <;> simp [emptyQueue]

theorem heapOk_enqueue (s : QueueState) (t : BuildTask) (p : QueuePriority)
    (h : HeapOk s) : HeapOk (enqueue s t p).2 := by
  obtain ⟨hb, hpw⟩ := h
  unfold enqueue
  cases hd : lookupHas s.lookup t.task_id with
  | true => simpa using ⟨hb, hpw⟩
  | false =>
    simp only [Bool.false_eq_true, if_false]
    constructor
    · intro qt hqt
      simp only [List.mem_append, List.mem_singleton] at hqt
      rcases hqt with h1 | h1
      · exact Nat.lt_succ_of_lt (hb qt h1)
      · subst h1
        exact Nat.lt_succ_self _
    · rw [List.pairwise_append]
      refine ⟨hpw, by simp, ?_⟩
      intro a ha b hbm
      simp only [List.mem_singleton] at hbm
      subst hbm
      exact Nat.ne_of_lt (hb a ha)

theorem heapOk_applyEnqueues (ops : List (BuildTask × QueuePriority))
    (s : QueueState) (h : HeapOk s) : HeapOk (applyEnqueues ops s) := by
  induction ops generalizing s with
  | nil => simpa [applyEnqueues] using h
  | cons op rest ih =>
    have : applyEnqueues (op :: rest) s =
        applyEnqueues rest (enqueue s op.1 op.2).2 := rfl
    rw [this]
    exact ih _ (heapOk_enqueue s op.1 op.2 h)

/-! ## Concrete sample inputs -/

/-- A freshly created `BuildTask` with the given id and branch. -/
def mkTask (id branch : String) : BuildTask :=
  { branch := branch, strategy := BuildStrategy.SIMPLE, task_id := id,
    arg3 := none, status := TaskStatus.PENDING, created_at := 0,
    started_at := none, completed_at := none, bat_dir := none,
    publish_root := none, process_id := none, return_code := none,
    error_message := none }

/-- A queue holding exactly the freshly enqueued task `t1`. -/
def c1state : QueueState :=
  (enqueue emptyQueue (mkTask ("t1") ("main")) QueuePriority.NORMAL).2

/-! ## Claim C8 -/

/-- Claim C8: enqueue of a task whose `task_id` is already present
returns `False` and leaves the queue state completely unchanged — no
duplicate entry, no counter increment, the existing entry untouched. -/
theorem C8_duplicate_enqueue_rejected (s : QueueState) (task : BuildTask)
    (p : QueuePriority) (h : lookupHas s.lookup task.task_id = true) :
    enqueue s task p = (false, s) := by
  simp [enqueue, h]

/-- Witness for C8 at a concrete queue already holding id `A`. -/
theorem C8_duplicate_enqueue_witness :
    lookupHas (enqueue emptyQueue (mkTask ("A") ("main"))
        QueuePriority.NORMAL).2.lookup (mkTask ("A") ("dev")).task_id =
      true ∧
    enqueue (enqueue emptyQueue (mkTask ("A") ("main"))
        QueuePriority.NORMAL).2 (mkTask ("A") ("dev")) QueuePriority.HIGH =
      (false,
       (enqueue emptyQueue (mkTask ("A") ("main")) QueuePriority.NORMAL).2) :=
  ⟨by decide,
   C8_duplicate_enqueue_rejected _ _ _ (by decide)⟩

/-! ## Claim C1 -/

/-- Claim C1 (code bug): after `cancel_task("t1")` returns `True` on a
queue holding `t1`, `get_task_position("t1")` is indeed `None`, but the
cancelled task is STILL returned by the next `dequeue` (with status
CANCELLED): `cancel_task` removes the id only from `_task_lookup`,
while `dequeue` pops straight from the `asyncio.PriorityQueue` heap and
never skips, contradicting the code's own comment
"(will be skipped when dequeued)". -/
theorem C1_cancelled_task_still_dequeued :
    (cancelTask c1state ("t1") 5).1 = true ∧
    getTaskPosition (cancelTask c1state ("t1") 5).2 ("t1") = none ∧
    ((dequeue (cancelTask c1state ("t1") 5).2).1.map
        (fun t => (t.task_id, t.status))) =
      some (("t1"), TaskStatus.CANCELLED) := by
  decide

/-! ## Claims C2 and C7 -/

/-- A task whose build process exited with code 0. -/
def c2task : BuildTask :=
  { mkTask ("t2") ("main") with
    status := TaskStatus.COMPLETED, started_at := some 10,
    completed_at := some 60, return_code := some 0 }

/-- An artifact of 200 bytes. -/
def c2info : BuildInfo :=
  { path := "p", folder_name := "f", ymd := "?", version := "?",
    build_type := BuildType.UNKNOWN, size_str := "200 B",
    size_bytes := 200 }

/-- Claim C2 (code bug): a task whose process exited with code 0 and
whose discovered artifact meets the 100-byte threshold is nevertheless
turned into a failed `BuildResult`: `_process_build_results` computes
the exit code as `task.return_code or -1`, and Python treats `0` as
falsy, so exit code 0 becomes -1 and the success determination reports
"Process exited with code -1". -/
theorem C2_exit_zero_build_reported_failed :
    c2task.return_code = some 0 ∧
    (100 : Nat) ≤ c2info.size_bytes ∧
    (processBuildResults 100 c2task 50 true (some c2info)).success =
      false ∧
    (processBuildResults 100 c2task 50 true (some c2info)).error_message =
      some ("Process exited with code -1") := by
  decide

/-- Claim C7: for exit code 0, `_determine_build_success` fails with the
no-artifacts reason when no artifact is passed, and with a
size-mentioning reason (quoting `size_str`) when the artifact is below
the minimum threshold. -/
theorem C7_success_determination_reasons (th : Nat) (task : BuildTask)
    (info : BuildInfo) :
    determineBuildSuccess th task none 0 =
      { success := false, reason := some ("No build artifacts detected") } ∧
    (info.size_bytes < th →
      determineBuildSuccess th task (some info) 0 =
        { success := false,
          reason := some ("Build artifact too small (" ++ info.size_str
            ++ ")") }) := by
  constructor
  · simp [determineBuildSuccess]
  · intro h
    simp [determineBuildSuccess, h]

/-- A 5-byte artifact, below any realistic threshold. -/
def c7info : BuildInfo :=
  { path := "p", folder_name := "f", ymd := "?", version := "?",
    build_type := BuildType.UNKNOWN, size_str := "5 B", size_bytes := 5 }

/-- Witness for C7 at threshold 100 and a 5-byte artifact. -/
theorem C7_success_determination_witness :
    c7info.size_bytes < 100 ∧
    (determineBuildSuccess 100 (mkTask ("t") ("b")) none 0 =
      { success := false, reason := some ("No build artifacts detected") } ∧
    (c7info.size_bytes < 100 →
      determineBuildSuccess 100 (mkTask ("t") ("b")) (some c7info) 0 =
        { success := false,
          reason := some ("Build artifact too small (" ++ c7info.size_str
            ++ ")") })) :=
  ⟨by decide, C7_success_determination_reasons 100 (mkTask ("t") ("b")) c7info⟩

/-! ## Claim C3 -/

/-- Claim C3: for every sequence of enqueue operations producing a
non-empty queue, `dequeue` removes and returns a task of maximal
priority value, and among tasks of equal priority the one with the
strictly earliest `queued_at` — which, since the enqueue clock is
strictly increasing, is the one enqueued first. -/
theorem C3_dequeue_returns_highest_priority_earliest
    (ops : List (BuildTask × QueuePriority))
    (hne : (applyEnqueues ops emptyQueue).heap ≠ []) :
    ∃ qt rest,
      popMin (applyEnqueues ops emptyQueue).heap = some (qt, rest) ∧
      dequeue (applyEnqueues ops emptyQueue) =
        (some qt.task,
         { heap := rest
           lookup := eraseKey (applyEnqueues ops emptyQueue).lookup
             qt.task.task_id
           total_enqueued := (applyEnqueues ops emptyQueue).total_enqueued
           total_dequeued :=
             (applyEnqueues ops emptyQueue).total_dequeued + 1
           clock := (applyEnqueues ops emptyQueue).clock }) ∧
      qt ∈ (applyEnqueues ops emptyQueue).heap ∧
      (applyEnqueues ops emptyQueue).heap.Perm (qt :: rest) ∧
      (∀ x ∈ (applyEnqueues ops emptyQueue).heap,
        x.priority.value ≤ qt.priority.value) ∧
      (∀ x ∈ (applyEnqueues ops emptyQueue).heap, x ≠ qt →
        x.priority.value = qt.priority.value →
        qt.queued_at < x.queued_at) := by
  cases hpm : popMin (applyEnqueues ops emptyQueue).heap with
  | none => exact absurd ((popMin_eq_none_iff _).1 hpm) hne
  | some p =>
    obtain ⟨qt, rest⟩ := p
    obtain ⟨hmem, hperm, hmin⟩ := popMin_spec _ qt rest hpm
    refine ⟨qt, rest, rfl, ?_, hmem, hperm, ?_, ?_⟩
    · unfold dequeue
      rw [hpm]
    · intro x hx
      have := (lt_eq_false_iff x qt).1 (hmin x hx)
      omega
    · intro x hx hne2 hpeq
      have h1 := (lt_eq_false_iff x qt).1 (hmin x hx)
      have h2 : x.queued_at ≠ qt.queued_at := by
        have hok := heapOk_applyEnqueues ops emptyQueue heapOk_empty
        exact hok.2.forall (fun a b hab => Ne.symm hab) hx hmem hne2
      omega

/-- Two tasks for the C3 witness: A at NORMAL, then B at HIGH. -/
def c3ops : List (BuildTask × QueuePriority) :=
  [(mkTask ("A") ("main"), QueuePriority.NORMAL),
   (mkTask ("B") ("dev"), QueuePriority.HIGH)]

/-- Witness for C3: after enqueuing A (NORMAL) then B (HIGH), dequeue
returns the HIGH task. -/
theorem C3_dequeue_witness :
    (applyEnqueues c3ops emptyQueue).heap ≠ [] ∧
    (∃ qt rest,
      popMin (applyEnqueues c3ops emptyQueue).heap = some (qt, rest) ∧
      dequeue (applyEnqueues c3ops emptyQueue) =
        (some qt.task,
         { heap := rest
           lookup := eraseKey (applyEnqueues c3ops emptyQueue).lookup
             qt.task.task_id
           total_enqueued := (applyEnqueues c3ops emptyQueue).total_enqueued
           total_dequeued :=
             (applyEnqueues c3ops emptyQueue).total_dequeued + 1
           clock := (applyEnqueues c3ops emptyQueue).clock }) ∧
      qt ∈ (applyEnqueues c3ops emptyQueue).heap ∧
      (applyEnqueues c3ops emptyQueue).heap.Perm (qt :: rest) ∧
      (∀ x ∈ (applyEnqueues c3ops emptyQueue).heap,
        x.priority.value ≤ qt.priority.value) ∧
      (∀ x ∈ (applyEnqueues c3ops emptyQueue).heap, x ≠ qt →
        x.priority.value = qt.priority.value →
        qt.queued_at < x.queued_at)) :=
  ⟨by decide, C3_dequeue_returns_highest_priority_earliest c3ops (by decide)⟩

/-! ## Claim C4 -/

/-- Claim C4: whatever the outcome of one task-processing round —
computed result or exception anywhere in the try-body — the finally
path always clears `_current_task`, attempts exactly one dequeue (the
dequeued task, if any, is spawned as the next round), and if the queue
was empty the `_is_processing` flag ends up false. -/
theorem C4_cleanup_always_runs (s : OrchestratorState) (task : BuildTask)
    (outcome : RunOutcome) :
    (processBuildTask s task outcome).1.current_task = none ∧
    (processBuildTask s task outcome).1.queue = (dequeue s.queue).2 ∧
    (processBuildTask s task outcome).2.2 = (dequeue s.queue).1 ∧
    ((dequeue s.queue).1 = none →
      (processBuildTask s task outcome).1.is_processing = false) := by
  rcases hdq : dequeue s.queue with ⟨o, q2⟩
  cases o <;> simp [processBuildTask, processNextTask, hdq]

/-- Witness for C4: a raised-exception round over an empty queue ends
with no current task and the busy flag cleared. -/
theorem C4_cleanup_witness :
    (processBuildTask
        { is_processing := true, current_task := none, queue := emptyQueue }
        (mkTask ("w4") ("main")) (RunOutcome.raised ("boom"))).1.current_task
      = none ∧
    (processBuildTask
        { is_processing := true, current_task := none, queue := emptyQueue }
        (mkTask ("w4") ("main")) (RunOutcome.raised ("boom"))).1.queue =
      (dequeue emptyQueue).2 ∧
    (processBuildTask
        { is_processing := true, current_task := none, queue := emptyQueue }
        (mkTask ("w4") ("main")) (RunOutcome.raised ("boom"))).2.2 =
      (dequeue emptyQueue).1 ∧
    ((dequeue emptyQueue).1 = none →
      (processBuildTask
        { is_processing := true, current_task := none, queue := emptyQueue }
        (mkTask ("w4") ("main")) (RunOutcome.raised ("boom"))).1.is_processing
        = false) :=
  C4_cleanup_always_runs
    { is_processing := true, current_task := none, queue := emptyQueue }
    (mkTask ("w4") ("main")) (RunOutcome.raised ("boom"))

/-! ## Claim C6 -/

/-- The status mutations the queue, executor and task methods apply to
a `BuildTask`: the queue's unconditional `task.status = QUEUED`
assignment inside `enqueue`, and the three guarded transition
methods. -/
inductive TaskOp where
  | enqueueMark
  | startExec (pid : Nat)
  | completeExec (rc : Int) (msg : Option String)
  | cancelExec (msg : Option String)
deriving DecidableEq

/-- Apply one operation to a task (an `error` is a raised exception;
the task is not mutated in that case). -/
def applyTaskOp (op : TaskOp) (t : BuildTask) (now : Nat) :
    Except String BuildTask :=
  match op with
  | .enqueueMark => Except.ok { t with status := TaskStatus.QUEUED }
  | .startExec pid => t.startExecution pid now
  | .completeExec rc msg => t.completeExecution rc msg now
  | .cancelExec msg => t.cancelExecution msg now

/-- Position of a status along PENDING→QUEUED→RUNNING→terminal. -/
def statusRank : TaskStatus → Nat
  | .PENDING => 0
  | .QUEUED => 1
  | .RUNNING => 2
  | .COMPLETED => 3
  | .FAILED => 3
  | .CANCELLED => 3

/-- Counterexample to claim C6 as stated: `ThreadSafeTaskQueue.enqueue`
assigns `status = QUEUED` unconditionally, so enqueueing a task whose
status is already terminal (COMPLETED) moves its status backwards to
QUEUED — both at the task-op level and through the queue itself. -/
theorem C6_enqueue_resets_terminal_status :
    (applyTaskOp TaskOp.enqueueMark
        { mkTask ("d") ("main") with status := TaskStatus.COMPLETED } 0) =
      Except.ok { mkTask ("d") ("main") with status := TaskStatus.QUEUED } ∧
    ((enqueue emptyQueue
        { mkTask ("d") ("main") with status := TaskStatus.COMPLETED }
        QueuePriority.NORMAL).2.lookup.map (fun p => p.2.task.status)) =
      [TaskStatus.QUEUED] ∧
    statusRank TaskStatus.QUEUED <
      statusRank ({ mkTask ("d") ("main") with
        status := TaskStatus.COMPLETED } : BuildTask).status :=
  ⟨rfl, rfl, by decide⟩

/-- Claim C6, amended: provided the queue's status assignment is only
applied to PENDING tasks (as in the orchestrated lifecycle, where only
fresh tasks are enqueued), every successful operation strictly
advances the status along PENDING→QUEUED→RUNNING→terminal, and a
guarded method applied in a wrong state raises without mutating — so
no operation moves a status backwards. -/
theorem C6_forward_only_transitions (op : TaskOp) (t t2 : BuildTask)
    (now : Nat) (h : applyTaskOp op t now = Except.ok t2)
    (henq : op = TaskOp.enqueueMark → t.status = TaskStatus.PENDING) :
    statusRank t.status < statusRank t2.status := by
  cases op with
  | enqueueMark =>
    have hp : t.status = TaskStatus.PENDING := henq rfl
    have h2 : ({ t with status := TaskStatus.QUEUED } : BuildTask) = t2 :=
      Except.ok.inj h
    rw [← h2, hp]
    show statusRank TaskStatus.PENDING < statusRank TaskStatus.QUEUED
    decide
  | startExec pid =>
    have h3 : t.startExecution pid now = Except.ok t2 := h
    unfold BuildTask.startExecution at h3
    split at h3
    · rename_i hq
      have h2 := Except.ok.inj h3
      rw [← h2, hq]
      show statusRank TaskStatus.QUEUED < statusRank TaskStatus.RUNNING
      decide
    · exact absurd h3 (by simp)
  | completeExec rc msg =>
    have h3 : t.completeExecution rc msg now = Except.ok t2 := h
    unfold BuildTask.completeExecution at h3
    split at h3
    · rename_i hq
      split at h3
      · have h2 := Except.ok.inj h3
        rw [← h2, hq]
        show statusRank TaskStatus.RUNNING < statusRank TaskStatus.COMPLETED
        decide
      · have h2 := Except.ok.inj h3
        rw [← h2, hq]
        show statusRank TaskStatus.RUNNING < statusRank TaskStatus.FAILED
        decide
    · exact absurd h3 (by simp)
  | cancelExec msg =>
    have h3 : t.cancelExecution msg now = Except.ok t2 := h
    unfold BuildTask.cancelExecution at h3
    split at h3
    · rename_i hq
      have h2 := Except.ok.inj h3
      rw [← h2]
      rcases hq with hq | hq
      · rw [hq]
        show statusRank TaskStatus.QUEUED < statusRank TaskStatus.CANCELLED
        decide
      · rw [hq]
        show statusRank TaskStatus.RUNNING < statusRank TaskStatus.CANCELLED
        decide
    · exact absurd h3 (by simp)

/-- The C6 witness task before `start_execution`. -/
def c6queuedTask : BuildTask :=
  { mkTask ("w6") ("main") with
    status := TaskStatus.QUEUED }

/-- The C6 witness task after `start_execution(7)` at time 3. -/
def c6runningTask : BuildTask :=
  { mkTask ("w6") ("main") with
    status := TaskStatus.RUNNING, started_at := some 3,
    process_id := some 7 }

/-- Witness for C6 amended: `start_execution` on a QUEUED task moves it
forward to RUNNING. -/
theorem C6_forward_only_witness :
    statusRank c6queuedTask.status < statusRank c6runningTask.status :=
  C6_forward_only_transitions (TaskOp.startExec 7) c6queuedTask
    c6runningTask 3 rfl (fun hh => absurd hh (by decide))

/-! ## Claim C10 -/

/-- An executor state with a run already in flight. -/
def busyExec : ExecutorState :=
  { current_task := none, current_process := none, is_executing := true,
    is_cancelled := false }

/-- Counterexample to claim C10 as stated: a call of `execute_task`
made while the executor is already executing raises `TaskQueueError`
before the try-block, so on exit `is_executing()` is still true and
nothing was cleared. -/
theorem C10_busy_call_leaves_executing :
    executeTask busyExec (mkTask ("x") ("main"))
        (ExecEnv.run 1 (Except.ok 0) false) 0 =
      (busyExec, mkTask ("x") ("main"),
       Except.error ("Executor is already running a task")) ∧
    busyExec.is_executing = true :=
  ⟨rfl, rfl⟩

/-- Claim C10, amended: for every call of `execute_task` made while the
executor is NOT already executing — whether it returns normally or
raises (launch failure, illegal task state transition, run failure,
cancellation) — the finally-block leaves `is_executing` false,
`get_current_task` none, and the process handle and cancellation flag
cleared. -/
theorem C10_execute_task_clears_state (st : ExecutorState)
    (task : BuildTask) (env : ExecEnv) (now : Nat)
    (h : st.is_executing = false) :
    (executeTask st task env now).1 = clearedExec := by
  unfold executeTask
  rw [h]
  simp

/-- Witness for C10 amended: an idle executor whose launch fails is
fully cleared on exit. -/
theorem C10_execute_task_witness :
    clearedExec.is_executing = false ∧
    (executeTask clearedExec (mkTask ("y") ("main"))
      (ExecEnv.launchFail ("boom")) 0).1 = clearedExec :=
  ⟨rfl, C10_execute_task_clears_state clearedExec (mkTask ("y") ("main"))
    (ExecEnv.launchFail ("boom")) 0 rfl⟩

/-! ## Claim C9 -/

/-- The line used as the C9 counterexample: it contains two fresh
triggers at once. -/
def c9line : String := "Running AutomationTool... Command: BuildCookRun"

/-- Counterexample to claim C9 as stated: the first (and only) output
line contains the trigger "Command: BuildCookRun", yet no
`ProgressUpdate` is emitted for it — the per-line loop `break`s after
the earlier-listed trigger "Running AutomationTool..." matches, so the
first line containing a given trigger does not always emit an update
for it. -/
theorem C9_multi_trigger_line_skips_second :
    strContains c9line ("Command: BuildCookRun") = true ∧
    ((runBuildOutput ("t") [c9line]).2.filter
      (fun u => u.stage == ("Command: BuildCookRun"))).length = 0 ∧
    ((runBuildOutput ("t") [c9line]).2.map (fun u => u.stage)) =
      [("Running AutomationTool...")] := by
  decide

/-- One step of the emitted-count invariant for a fixed trigger: each
processed line keeps the count of updates for that trigger below the
bound given by membership in `triggered_stages`. -/
theorem processOutputLine_invariant (taskId trig line : String)
    (tr : List String) (ups : List ProgressUpdate)
    (hinv : (ups.filter (fun u => u.stage == trig)).length ≤
      (if trig ∈ tr then 1 else 0)) :
    ((ups ++ ((processOutputLine taskId tr line).2).toList).filter
        (fun u => u.stage == trig)).length ≤
      (if trig ∈ (processOutputLine taskId tr line).1 then 1 else 0) := by
  unfold processOutputLine
  by_cases hl : line = ""
  · simpa [hl] using hinv
  · simp only [hl, if_false]
    cases hf : stages.find? (fun p =>
        strContains line p.1 && !(tr.contains p.1)) with
    | none => simpa using hinv
    | some p =>
      have hp := List.find?_some hf
      simp only [Bool.and_eq_true, Bool.not_eq_true'] at hp
      by_cases ht : p.1 = trig
      · have hnotin : trig ∉ tr := by
          intro hmem
          rw [ht] at hp
          have : tr.contains trig = true := by
            simpa using hmem
          rw [this] at hp
          exact absurd hp.2 (by simp)
        have hz : (ups.filter (fun u => u.stage == trig)).length = 0 := by
          have := hinv
          rw [if_neg hnotin] at this
          omega
        simp [List.filter_append, hz, ht]
      · have hne : (({ task_id := taskId, stage := p.1, message := p.2 } :
            ProgressUpdate).stage == trig) = false := by
          simp [ht]
        simp only [List.filter_append, List.length_append]
        simp only [Option.toList_some, List.filter_cons, hne,
          if_false]
        simp only [List.filter_nil, List.length_nil, Nat.add_zero]
        have hmono : (if trig ∈ tr then 1 else 0) ≤
            (if trig ∈ tr ++ [p.1] then 1 else 0) := by
          by_cases hm : trig ∈ tr
          · simp [hm]
          · rw [if_neg hm]
            exact Nat.zero_le _
        exact le_trans hinv hmono

/-- The loop invariant lifted over the whole read loop. -/
theorem runLoop_invariant (taskId trig : String) (lines : List String)
    (tr : List String) (ups : List ProgressUpdate)
    (hinv : (ups.filter (fun u => u.stage == trig)).length ≤
      (if trig ∈ tr then 1 else 0)) :
    ((lines.foldl
        (fun acc line =>
          let r := processOutputLine taskId acc.1 line
          (r.1, acc.2 ++ r.2.toList))
        (tr, ups)).2.filter (fun u => u.stage == trig)).length ≤ 1 := by
  induction lines generalizing tr ups with
  | nil =>
    simp only [List.foldl_nil]
    refine le_trans hinv ?_
    by_cases hm : trig ∈ tr <;> simp [hm]
  | cons line rest ih =>
    simp only [List.foldl_cons]
    exact ih (processOutputLine taskId tr line).1
      (ups ++ ((processOutputLine taskId tr line).2).toList)
      (processOutputLine_invariant taskId trig line tr ups hinv)

/-- Claim C9, amended: the executor emits at most one `ProgressUpdate`
per stage trigger per task; each line emits at most one update — for
the earliest-listed not-yet-seen trigger it contains — so a trigger
first seen on a line where an earlier-listed fresh trigger also
matches is emitted on a later matching line (or not at all), and a
trigger already seen never emits again. -/
theorem C9_at_most_one_update_per_trigger (taskId : String)
    (lines : List String) (trig : String) :
    ((runBuildOutput taskId lines).2.filter
      (fun u => u.stage == trig)).length ≤ 1 := by
  have h := runLoop_invariant taskId trig lines [] [] (by simp)
  simpa [runBuildOutput] using h

/-! ## Claim C5 -/

theorem BuildStrategy.fromValue_strategy_value (s : BuildStrategy) :
    BuildStrategy.fromValue s.value = some s := by
  cases s <;> rfl

theorem TaskStatus.fromValue_status_value (s : TaskStatus) :
    TaskStatus.fromValue s.value = some s := by
  cases s <;> rfl

theorem QueuePriority.fromName_pname (p : QueuePriority) :
    QueuePriority.fromName p.pname = some p := by
  cases p <;> rfl

/-- `from_dict` inverts `to_dict` exactly (enum values and isoformat
timestamps round-trip). -/
theorem BuildTask.fromDict_toDict (t : BuildTask) :
    BuildTask.fromDict t.toDict = some t := by
  cases t with
  | mk branch strategy task_id arg3 status created_at started_at
      completed_at bat_dir publish_root process_id return_code
      error_message =>
    cases strategy <;> cases status <;> rfl

/-- Restoring a persisted entry recovers the original `QueuedTask`. -/
theorem restoreEntry_roundtrip (qt : QueuedTask) :
    restoreEntry
      { task := qt.task.toDict, priority := qt.priority.pname,
        queued_at := qt.queued_at } = some qt := by
  cases qt with
  | mk task priority queued_at =>
    simp [restoreEntry, BuildTask.fromDict_toDict,
      QueuePriority.fromName_pname]

/-- Restoring every persisted entry of a lookup reproduces its values. -/
theorem restore_persisted_values (l : List (String × QueuedTask)) :
    (l.map (fun p =>
      ({ task := p.2.task.toDict, priority := p.2.priority.pname,
         queued_at := p.2.queued_at } : PersistEntry))).filterMap
        restoreEntry = l.map Prod.snd := by
  induction l with
  | nil => rfl
  | cons p rest ih =>
    simp only [List.map_cons, List.filterMap_cons, restoreEntry_roundtrip]
    rw [ih]

/-- Re-keying the restored values by `task_id` reproduces the lookup. -/
theorem lookup_reconstruct (l : List (String × QueuedTask))
    (hkeys : ∀ p ∈ l, p.1 = p.2.task.task_id) :
    (l.map Prod.snd).map (fun qt => (qt.task.task_id, qt)) = l := by
  induction l with
  | nil => rfl
  | cons p rest ih =>
    simp only [List.map_cons]
    have h1 : p.1 = p.2.task.task_id := hkeys p (by simp)
    have h2 : (p.2.task.task_id, p.2) = p := by
      cases p with
      | mk k v =>
        simp only at h1
        rw [← h1]
    rw [h2, ih (fun q hq => hkeys q (by simp [hq]))]

/-- The persistence layer itself is exact: for every state whose heap
and lookup hold the same entries (every state reached by enqueues and
dequeues alone — i.e. free of `cancel_task`'s unpersisted heap ghosts),
writing the persistence file and rebuilding a queue from it reproduces
the lookup (ids and priorities), the heap, the counters, and hence the
dequeue order. -/
theorem persist_reload_exact (s : QueueState) (c : Nat)
    (hkeys : ∀ p ∈ s.lookup, p.1 = p.2.task.task_id)
    (hheap : s.heap = s.lookup.map Prod.snd) :
    (loadPersisted (persistQueue s) c).lookup = s.lookup ∧
    (loadPersisted (persistQueue s) c).heap = s.heap ∧
    (loadPersisted (persistQueue s) c).total_enqueued = s.total_enqueued ∧
    (loadPersisted (persistQueue s) c).total_dequeued = s.total_dequeued ∧
    drainIds (loadPersisted (persistQueue s) c).heap = drainIds s.heap := by
  have hres : (persistQueue s).tasks.filterMap restoreEntry =
      s.lookup.map Prod.snd := restore_persisted_values s.lookup
  have hh : (loadPersisted (persistQueue s) c).heap = s.heap := by
    simp only [loadPersisted, hres]
    exact hheap.symm
  have hl : (loadPersisted (persistQueue s) c).lookup = s.lookup := by
    simp only [loadPersisted, hres]
    exact lookup_reconstruct s.lookup hkeys
  exact ⟨hl, hh, rfl, rfl, by rw [hh]⟩

/-- `persist_reload_exact` instantiated on the two-task queue built
from `c3ops`, with both invariants checked by evaluation. -/
theorem persist_reload_exact_example :
    (∀ p ∈ (applyEnqueues c3ops emptyQueue).lookup,
      p.1 = p.2.task.task_id) ∧
    ((applyEnqueues c3ops emptyQueue).heap =
      (applyEnqueues c3ops emptyQueue).lookup.map Prod.snd) ∧
    ((loadPersisted (persistQueue (applyEnqueues c3ops emptyQueue)) 99).lookup
        = (applyEnqueues c3ops emptyQueue).lookup ∧
     (loadPersisted (persistQueue (applyEnqueues c3ops emptyQueue)) 99).heap
        = (applyEnqueues c3ops emptyQueue).heap ∧
     (loadPersisted (persistQueue
        (applyEnqueues c3ops emptyQueue)) 99).total_enqueued
        = (applyEnqueues c3ops emptyQueue).total_enqueued ∧
     (loadPersisted (persistQueue
        (applyEnqueues c3ops emptyQueue)) 99).total_dequeued
        = (applyEnqueues c3ops emptyQueue).total_dequeued ∧
     drainIds (loadPersisted (persistQueue
        (applyEnqueues c3ops emptyQueue)) 99).heap
        = drainIds (applyEnqueues c3ops emptyQueue).heap) :=
  ⟨by decide, by decide,
   persist_reload_exact (applyEnqueues c3ops emptyQueue) 99
     (by decide) (by decide)⟩

/-- The queue state reached by enqueuing `t5` and then cancelling it:
the cancelled entry remains in the heap but not in the lookup. -/
def c5ghostState : QueueState :=
  (cancelTask
    (enqueue emptyQueue (mkTask ("t5") ("main")) QueuePriority.NORMAL).2
    ("t5") 5).2

/-- Claim C5 (code bug): persist + reload does NOT preserve queue
contents for every state.  After `enqueue` of `t5` followed by
`cancel_task("t5")` (which returns True), the cancelled entry is still
in the live heap — the pre-reload dequeue order is `[t5]` — but
`_persist_queue` serializes only `_task_lookup`, so the reloaded queue
is empty and its dequeue order is `[]`.  The round trip changes the
observable contents; the root cause is `cancel_task`'s unpersisted
heap ghost (claim C1's bug), while persistence of the lookup itself is
exact (`persist_reload_exact`). -/
theorem C5_cancel_ghost_breaks_reload :
    (cancelTask
      (enqueue emptyQueue (mkTask ("t5") ("main")) QueuePriority.NORMAL).2
      ("t5") 5).1 = true ∧
    drainIds c5ghostState.heap = [("t5")] ∧
    drainIds (loadPersisted (persistQueue c5ghostState) 9).heap = [] := by
  decide
